import Mathlib

/-!
Shallow embedding of `src/main.rs` of the `wazuhchecker` repository.

The program is a linear provisioning sequence: check whether the agent is
installed, detect distribution/version/architecture, resolve a package
filename and URL, download, check sudo, install, clean up.  External
effects (reading `/etc/os-release`, spawning `which`/`curl`/`sudo`) are
modelled by an explicit environment record `Env`; the sequence of external
actions performed is returned as a `List Step` trace.

String scanning (`str::lines`, `str::split('=')`, `str::trim_matches('"')`,
`str::starts_with`) is re-implemented by structural recursion over
`List Char` so that every definition evaluates inside the kernel.
-/

/-- Rust `str::split(c)`: split a character list at every occurrence of `c`;
an empty input yields one empty piece, as in Rust. -/
def splitOnChar (c : Char) : List Char → List (List Char)
  | [] => [[]]
  | x :: xs =>
    if x = c then [] :: splitOnChar c xs
    else
      match splitOnChar c xs with
      | [] => [[x]]
      | y :: ys => (x :: y) :: ys

/-- Rust `str::starts_with(pat)` on character lists. -/
def beginsWith : List Char → List Char → Bool
  | [], _ => true
  | _ :: _, [] => false
  | p :: ps, x :: xs => p = x && beginsWith ps xs

/-- Rust `str::ends_with(pat)` on character lists. -/
def finishesWith (pat l : List Char) : Bool :=
  beginsWith pat.reverse l.reverse

/-- Rust `str::trim_matches('"')`: strip every leading and trailing
double-quote character. -/
def trimQuoteMarks (l : List Char) : List Char :=
  ((l.dropWhile (fun c => c = '"')).reverse.dropWhile (fun c => c = '"')).reverse

/-- Drop a single trailing carriage return, as Rust `str::lines` does for
`\r\n` line terminators. -/
def dropTrailingCR (l : List Char) : List Char :=
  match l.reverse with
  | '\r' :: rest => rest.reverse
  | _ => l

/-- Rust `str::lines`: split at `\n`, drop the final empty piece produced by a
trailing newline, and strip one trailing `\r` from each line. -/
def rustLines (s : List Char) : List (List Char) :=
  let parts := splitOnChar '\n' s
  let parts :=
    match parts.reverse with
    | [] :: rest => rest.reverse
    | _ => parts
  parts.map dropTrailingCR

/-- `line.split('=').nth(1).unwrap_or("").trim_matches('"')` from
`get_distribution_and_version`. -/
def eqFieldValue (line : List Char) : List Char :=
  trimQuoteMarks ((splitOnChar '=' line).getD 1 [])

/-- The `ID=` / `VERSION_ID=` scan of `get_distribution_and_version`
(lines 135-144 of `main.rs`): fold over the lines of `/etc/os-release`,
the last matching line winning, both fields starting out empty. -/
def parse_os_release (content : String) : String × String :=
  let r := (rustLines content.toList).foldl
    (fun acc line =>
      if beginsWith "ID=".toList line then (eqFieldValue line, acc.2)
      else if beginsWith "VERSION_ID=".toList line then (acc.1, eqFieldValue line)
      else acc)
    ([], [])
  (String.mk r.1, String.mk r.2)

deriving instance DecidableEq for Except

/-- The Rust `InstallError` enum. -/
inductive InstallError where
  | DistributionDetectionError (msg : String)
  | ArchitectureDetectionError (msg : String)
  | DownloadError (msg : String)
  | SudoError (msg : String)
  | InstallationError (msg : String)
  | IOError (msg : String)
  deriving DecidableEq, Repr

/-- The match of lines 146-161 of `main.rs`, on the already-extracted
`(distribution, version)` pair. -/
def classify_distribution (distribution version : String) :
    Except InstallError (String × String) :=
  if distribution = "alpine" then .ok ("alpine", version)
  else if distribution = "amazon" then .ok ("amazon", "latest")
  else if distribution = "centos" then .ok ("centos", version)
  else if distribution = "debian" then .ok ("debian", version)
  else if distribution = "fedora" then .ok ("fedora", version)
  else if distribution = "opensuse" then .ok ("opensuse", version)
  else if distribution = "oracle" then .ok ("oracle", version)
  else if distribution = "redhat" then .ok ("redhat", version)
  else if distribution = "suse" then .ok ("suse", version)
  else if distribution = "ubuntu" then .ok ("ubuntu", version)
  else if distribution = "raspbian" then .ok ("raspbian", version)
  else .error (.DistributionDetectionError "Unsupported distribution")

/-- `get_distribution_and_version`, as a function of the content of
`/etc/os-release` (`none` models an unreadable file): extract the two fields,
then run the source-order match. -/
def get_distribution_and_version (osRelease : Option String) :
    Except InstallError (String × String) :=
  match osRelease with
  | none => .error (.DistributionDetectionError "Failed to read /etc/os-release")
  | some content =>
    let dv := parse_os_release content
    classify_distribution dv.1 dv.2

/-- `get_architecture`, as a function of the compile-time target architecture
tested by the `cfg!(target_arch = ...)` chain of lines 164-180 of `main.rs`. -/
def get_architecture (target_arch : String) : Except InstallError String :=
  if target_arch = "x86" then .ok "i386"
  else if target_arch = "x86_64" then .ok "x86_64"
  else if target_arch = "aarch64" then .ok "aarch64"
  else if target_arch = "arm" then .ok "armhf"
  else if target_arch = "powerpc64" then .ok "powerpc"
  else .error (.ArchitectureDetectionError "Unsupported architecture")

/-- `get_package_name` (lines 182-199 of `main.rs`): the match arms in source
order, first match winning; the second argument is the ARCHITECTURE string, as
at the call site on line 80.  The `unreachable!()` arm is modelled as `none`. -/
def get_package_name (distribution architecture : String) : Option String :=
  if distribution = "alpine" then some "wazuh-agent-4.7.3-r1.apk"
  else if distribution = "amazon" then some "wazuh-agent-4.7.3-1.ppc64le.rpm"
  else if (distribution = "centos" ∧ architecture = "5") ∨
      (distribution = "oracle" ∧ architecture = "5") then
    some "wazuh-agent-4.7.3-1.el5.x86_64.rpm"
  else if distribution = "centos" then some "wazuh-agent-4.7.3-1.x86_64.rpm"
  else if distribution = "debian" then some "wazuh-agent_4.7.3-1_amd64.deb"
  else if distribution = "fedora" then some "wazuh-agent-4.7.3-1.x86_64.rpm"
  else if distribution = "opensuse" then some "wazuh-agent-4.7.3-1.x86_64.rpm"
  else if distribution = "oracle" then some "wazuh-agent-4.7.3-1.x86_64.rpm"
  else if distribution = "redhat" ∧ architecture = "5" then
    some "wazuh-agent-4.7.3-1.el5.x86_64.rpm"
  else if distribution = "redhat" then some "wazuh-agent-4.7.3-1.x86_64.rpm"
  else if distribution = "suse" ∧ architecture = "11" then
    some "wazuh-agent-4.7.3-1.el5.x86_64.rpm"
  else if distribution = "suse" then some "wazuh-agent-4.7.3-1.x86_64.rpm"
  else if distribution = "ubuntu" then some "wazuh-agent_4.7.3-1_amd64.deb"
  else if distribution = "raspbian" then some "wazuh-agent_4.7.3-1_armhf.deb"
  else none

/-- `get_package_extension` (lines 202-207 of `main.rs`). -/
def get_package_extension (distribution : String) : String :=
  if distribution = "alpine" then "apk" else "rpm"

/-- The install-command selection inside `install_wazuh_agent`
(lines 108-112 of `main.rs`): keyed on `package_extension`, the output of
`get_package_extension`. -/
def install_command (package_extension : String) : String :=
  if package_extension = "deb" then "dpkg -i" else "rpm -Uvh"

/-- External actions performed by `install_wazuh_agent`, in invocation order. -/
inductive Step where
  | curlProbe
  | download (url : String) (dest : String)
  | sudoCheck
  | install (cmd : String) (path : String)
  | removeFile (path : String)
  deriving DecidableEq, Repr

/-- The host environment of one run.  `none` for a command status models a
spawn error; `some b` a completed command whose exit-success flag is `b`.
`removeOk` is the result of `fs::remove_file`, which the code discards. -/
structure Env where
  osRelease : Option String
  target_arch : String
  curlProbeOk : Bool
  downloadStatus : Option Bool
  sudoStatus : Option Bool
  installStatus : Option Bool
  removeOk : Bool
  deriving DecidableEq, Repr

/-- The outcome of `install_wazuh_agent`; `panicked` models the
`unreachable!()` arm of `get_package_name`. -/
inductive RunResult where
  | ok
  | err (e : InstallError)
  | panicked
  deriving DecidableEq, Repr

/-- `install_wazuh_agent` (lines 73-127 of `main.rs`): detection, URL and path
resolution, curl probe, download, sudo validation, install, then the
best-effort `fs::remove_file` whose result is discarded.  The early `return`
on each failure is modelled by stopping the trace at the failing step; in
particular the `remove_file` on line 124 is reached only when the install
status was a success, exactly as in the source. -/
def install_wazuh_agent (e : Env) : RunResult × List Step :=
  match get_distribution_and_version e.osRelease with
  | .error err => (.err err, [])
  | .ok (distribution, version) =>
    match get_architecture e.target_arch with
    | .error err => (.err err, [])
    | .ok architecture =>
      match get_package_name distribution architecture with
      | none => (.panicked, [])
      | some packageName =>
        let package_url := "https://packages.wazuh.com/4.x/" ++ distribution ++ "/"
          ++ version ++ "/" ++ architecture ++ "/" ++ packageName
        let package_extension := get_package_extension distribution
        let package_path := "/tmp/wazuh-agent." ++ package_extension
        if e.curlProbeOk = false then
          (.err (.DownloadError "Curl is not installed."), [.curlProbe])
        else
          match e.downloadStatus with
          | some true =>
            match e.sudoStatus with
            | some true =>
              match e.installStatus with
              | some true =>
                (.ok,
                  [.curlProbe, .download package_url package_path, .sudoCheck,
                    .install (install_command package_extension) package_path,
                    .removeFile package_path])
              | _ =>
                (.err (.InstallationError "Failed to install Wazuh agent package."),
                  [.curlProbe, .download package_url package_path, .sudoCheck,
                    .install (install_command package_extension) package_path])
            | _ =>
              (.err (.SudoError "Sudo privileges are required for installation."),
                [.curlProbe, .download package_url package_path, .sudoCheck])
          | _ =>
            (.err (.DownloadError "Failed to download the Wazuh agent package."),
              [.curlProbe, .download package_url package_path])

/-- `check_wazuh_installed` (lines 61-71 of `main.rs`): `whichStatus` is the
result of `which wazuhctl` (`none` = the lookup tool could not be invoked,
`some b` = its exit-success flag). -/
def check_wazuh_installed (whichStatus : Option Bool) : Except InstallError Bool :=
  match whichStatus with
  | none => .ok false
  | some s => .ok s

/-- The eleven distribution tags `get_distribution_and_version` can return. -/
def supportedDistributions : List String :=
  ["alpine", "amazon", "centos", "debian", "fedora", "opensuse", "oracle",
   "redhat", "suse", "ubuntu", "raspbian"]

/-- The five architecture tags `get_architecture` can return. -/
def supportedArchitectures : List String :=
  ["i386", "x86_64", "aarch64", "armhf", "powerpc"]

/-- On an identifier outside the supported set, `classify_distribution` takes
its final arm and reports an unsupported distribution. -/
lemma classify_not_mem (d0 v0 : String) (hm : d0 ∉ supportedDistributions) :
    classify_distribution d0 v0 =
      .error (.DistributionDetectionError "Unsupported distribution") := by
  simp only [supportedDistributions, List.mem_cons, List.not_mem_nil, or_false,
    not_or] at hm
  obtain ⟨n1, n2, n3, n4, n5, n6, n7, n8, n9, n10, n11⟩ := hm
  simp [classify_distribution, n1, n2, n3, n4, n5, n6, n7, n8, n9, n10, n11]

/-- Any distribution tag returned successfully by `classify_distribution` is
one of the eleven supported tags. -/
lemma classify_mem_supported (d0 v0 d v : String)
    (h : classify_distribution d0 v0 = .ok (d, v)) :
    d ∈ supportedDistributions := by
  by_cases hm : d0 ∈ supportedDistributions
  · simp only [supportedDistributions, List.mem_cons, List.not_mem_nil,
      or_false] at hm
    rcases hm with rfl | rfl | rfl | rfl | rfl | rfl | rfl | rfl | rfl | rfl | rfl <;>
      (simp [classify_distribution] at h; rcases h with ⟨rfl, rfl⟩; decide)
  · rw [classify_not_mem d0 v0 hm] at h
    exact Except.noConfusion h

/-- Any distribution tag returned successfully by `get_distribution_and_version`
is one of the eleven supported tags. -/
lemma gdv_mem_supported (o : Option String) (d v : String)
    (h : get_distribution_and_version o = .ok (d, v)) :
    d ∈ supportedDistributions := by
  cases o with
  | none => simp [get_distribution_and_version] at h
  | some content =>
    simp only [get_distribution_and_version] at h
    exact classify_mem_supported _ _ _ _ h

/-- Any architecture tag returned successfully by `get_architecture` is one of
the five supported tags. -/
lemma arch_mem_supported (t a : String) (h : get_architecture t = .ok a) :
    a ∈ supportedArchitectures := by
  simp only [get_architecture] at h
  split_ifs at h <;>
    first
    | exact Except.noConfusion h
    | (injection h with h1; subst h1; decide)

/-- On every supported distribution and architecture pair, `get_package_name`
hits an explicit table arm. -/
lemma package_name_isSome :
    ∀ d ∈ supportedDistributions, ∀ a ∈ supportedArchitectures,
      (get_package_name d a).isSome = true := by decide

/-- A host whose resolved ubuntu package would install cleanly end to end:
every external command succeeds. -/
def envUbuntu : Env :=
  ⟨some "ID=ubuntu\nVERSION_ID=\"22.04\"\n", "x86_64", true, some true, some true,
    some true, true⟩

/-- A centos 7 host on which the native install command exits non-zero. -/
def envInstallFail : Env :=
  ⟨some "ID=centos\nVERSION_ID=\"7\"\n", "x86_64", true, some true, some true,
    some false, true⟩

/-- A centos 7 host on which the install succeeds but deleting the downloaded
file fails. -/
def envRemoveFail : Env :=
  ⟨some "ID=centos\nVERSION_ID=\"7\"\n", "x86_64", true, some true, some true,
    some true, false⟩

/-- A fedora host with no download utility available. -/
def envNoCurl : Env :=
  ⟨some "ID=fedora\nVERSION_ID=\"40\"\n", "aarch64", false, none, none, none, true⟩

/-- A fedora host where download succeeds but the sudo credential check fails. -/
def envNoSudo : Env :=
  ⟨some "ID=fedora\nVERSION_ID=\"40\"\n", "aarch64", true, some true, some false,
    none, true⟩

/-- C1 (counterexample): for ubuntu the resolved filename ends in ".deb", yet
the install command is selected from the output of `get_package_extension`
(which is "rpm"), so the RPM command is chosen and the Debian command is not —
refuting the claim that the Debian command is chosen exactly when the filename
ends in ".deb", and its ubuntu instance in particular. -/
theorem claim_C1_counterexample :
    get_package_name "ubuntu" "x86_64" = some "wazuh-agent_4.7.3-1_amd64.deb" ∧
    finishesWith ".deb".toList "wazuh-agent_4.7.3-1_amd64.deb".toList = true ∧
    get_package_extension "ubuntu" = "rpm" ∧
    install_command (get_package_extension "ubuntu") = "rpm -Uvh" ∧
    install_wazuh_agent envUbuntu =
      (.ok,
       [.curlProbe,
        .download
          "https://packages.wazuh.com/4.x/ubuntu/22.04/x86_64/wazuh-agent_4.7.3-1_amd64.deb"
          "/tmp/wazuh-agent.rpm",
        .sudoCheck,
        .install "rpm -Uvh" "/tmp/wazuh-agent.rpm",
        .removeFile "/tmp/wazuh-agent.rpm"]) := by decide

/-- C1 (amended): the installer selects the install command from the output of
`get_package_extension` alone, never from the filename; since that output is
"apk" or "rpm" and never "deb", the RPM command is selected for every
distribution, including those whose resolved filename ends in ".deb". -/
theorem claim_C1_amended (distribution : String) :
    install_command (get_package_extension distribution) = "rpm -Uvh" := by
  by_cases h : distribution = "alpine" <;>
    simp [install_command, get_package_extension, h]

/-- C2: on a centos host with VERSION_ID 5, detection yields ("centos", "5"),
but `get_package_name` matches its second argument — the architecture — against
"5", so for every recognized architecture tag the legacy el5 filename is NOT
produced; the plain x86_64 RPM filename is returned instead, and likewise for
oracle, redhat and suse.  This evaluates the code at the claim's failing
input. -/
theorem claim_C2_eval :
    get_distribution_and_version (some "ID=centos\nVERSION_ID=\"5\"\n") =
      .ok ("centos", "5") ∧
    (supportedArchitectures.all fun a =>
      get_package_name "centos" a == some "wazuh-agent-4.7.3-1.x86_64.rpm") = true ∧
    (supportedArchitectures.all fun a =>
      get_package_name "oracle" a == some "wazuh-agent-4.7.3-1.x86_64.rpm") = true ∧
    (supportedArchitectures.all fun a =>
      get_package_name "redhat" a == some "wazuh-agent-4.7.3-1.x86_64.rpm") = true ∧
    (supportedArchitectures.all fun a =>
      get_package_name "suse" a == some "wazuh-agent-4.7.3-1.x86_64.rpm") = true ∧
    get_package_name "centos" "x86_64" ≠ some "wazuh-agent-4.7.3-1.el5.x86_64.rpm" := by
  decide

/-- C3: when the native install command fails, `install_wazuh_agent` returns
early with an InstallationError and the best-effort `remove_file` on line 124
is never reached, so the downloaded file is NOT deleted on that exit — contrary
to the claim (and to the source comment on line 123).  On the success path the
deletion is attempted and its own failure is ignored: an environment where the
deletion fails still reports success. -/
theorem claim_C3_eval :
    install_wazuh_agent envInstallFail =
      (.err (.InstallationError "Failed to install Wazuh agent package."),
       [.curlProbe,
        .download
          "https://packages.wazuh.com/4.x/centos/7/x86_64/wazuh-agent-4.7.3-1.x86_64.rpm"
          "/tmp/wazuh-agent.rpm",
        .sudoCheck,
        .install "rpm -Uvh" "/tmp/wazuh-agent.rpm"]) ∧
    (∀ p, Step.removeFile p ∉ (install_wazuh_agent envInstallFail).2) ∧
    install_wazuh_agent envRemoveFail =
      (.ok,
       [.curlProbe,
        .download
          "https://packages.wazuh.com/4.x/centos/7/x86_64/wazuh-agent-4.7.3-1.x86_64.rpm"
          "/tmp/wazuh-agent.rpm",
        .sudoCheck,
        .install "rpm -Uvh" "/tmp/wazuh-agent.rpm",
        .removeFile "/tmp/wazuh-agent.rpm"]) := by
  refine ⟨by decide, ?_, by decide⟩
  intro p hp
  have h2 : (install_wazuh_agent envInstallFail).2 =
      [.curlProbe,
       .download
         "https://packages.wazuh.com/4.x/centos/7/x86_64/wazuh-agent-4.7.3-1.x86_64.rpm"
         "/tmp/wazuh-agent.rpm",
       .sudoCheck,
       .install "rpm -Uvh" "/tmp/wazuh-agent.rpm"] := by decide
  rw [h2] at hp
  simp at hp

/-- C4: whenever the ID field of the os-release content parses to "amazon",
`get_distribution_and_version` returns the fixed version token "latest",
whatever the VERSION_ID field held (or whether it was present at all). -/
theorem claim_C4 (content : String)
    (h : (parse_os_release content).1 = "amazon") :
    get_distribution_and_version (some content) = .ok ("amazon", "latest") := by
  simp only [get_distribution_and_version]
  rw [h]
  simp [classify_distribution]

/-- C4 witness: a concrete amazon os-release whose VERSION_ID is "2023.3";
the parsed version field really was "2023.3", yet the result is "latest". -/
theorem claim_C4_witness :
    get_distribution_and_version (some "ID=amazon\nVERSION_ID=\"2023.3\"\n") =
      .ok ("amazon", "latest") ∧
    (parse_os_release "ID=amazon\nVERSION_ID=\"2023.3\"\n").2 = "2023.3" :=
  ⟨claim_C4 _ (by decide), by decide⟩

/-- C5: whenever the quote-stripped ID field of the os-release content is not
one of the eleven recognized identifiers, `get_distribution_and_version`
fails with a DistributionDetectionError instead of defaulting. -/
theorem claim_C5 (content : String)
    (h : (parse_os_release content).1 ∉ supportedDistributions) :
    get_distribution_and_version (some content) =
      .error (.DistributionDetectionError "Unsupported distribution") := by
  simp only [get_distribution_and_version]
  exact classify_not_mem _ _ h

/-- C5 witness: a gentoo os-release is rejected. -/
theorem claim_C5_witness :
    get_distribution_and_version (some "ID=gentoo\nVERSION_ID=\"2.14\"\n") =
      .error (.DistributionDetectionError "Unsupported distribution") :=
  claim_C5 _ (by decide)

/-- C6: on any host whose detection and name resolution succeed, the external
steps run in the strict order curl probe, download, sudo check, install: if the
download utility is absent the run aborts with a DownloadError and no sudo
check ever appears in the trace; if the download fails, likewise; and if the
sudo credential check fails the run aborts with a SudoError with no install
step in the trace. -/
theorem claim_C6 (e : Env) (d v a n : String)
    (hd : get_distribution_and_version e.osRelease = .ok (d, v))
    (ha : get_architecture e.target_arch = .ok a)
    (hn : get_package_name d a = some n) :
    (e.curlProbeOk = false →
      install_wazuh_agent e =
        (.err (.DownloadError "Curl is not installed."), [.curlProbe]) ∧
      Step.sudoCheck ∉ (install_wazuh_agent e).2) ∧
    (e.curlProbeOk = true → e.downloadStatus ≠ some true →
      (install_wazuh_agent e).1 =
        .err (.DownloadError "Failed to download the Wazuh agent package.") ∧
      Step.sudoCheck ∉ (install_wazuh_agent e).2) ∧
    (e.curlProbeOk = true → e.downloadStatus = some true →
        e.sudoStatus ≠ some true →
      (install_wazuh_agent e).1 =
        .err (.SudoError "Sudo privileges are required for installation.") ∧
      ∀ c p, Step.install c p ∉ (install_wazuh_agent e).2) := by
  refine ⟨fun hc => ?_, fun hc hdl => ?_, fun hc hdl hs => ?_⟩
  · have hrun : install_wazuh_agent e =
        (.err (.DownloadError "Curl is not installed."), [.curlProbe]) := by
      simp [install_wazuh_agent, hd, ha, hn, hc]
    exact ⟨hrun, by rw [hrun]; simp⟩
  · have hrun : install_wazuh_agent e =
        (.err (.DownloadError "Failed to download the Wazuh agent package."),
         [.curlProbe,
          .download
            ("https://packages.wazuh.com/4.x/" ++ d ++ "/" ++ v ++ "/" ++ a
              ++ "/" ++ n)
            ("/tmp/wazuh-agent." ++ get_package_extension d)]) := by
      rcases hdl2 : e.downloadStatus with _ | b
      · simp [install_wazuh_agent, hd, ha, hn, hc, hdl2]
      · cases b
        · simp [install_wazuh_agent, hd, ha, hn, hc, hdl2]
        · exact absurd hdl2 hdl
    refine ⟨by rw [hrun], by rw [hrun]; simp⟩
  · have hrun : install_wazuh_agent e =
        (.err (.SudoError "Sudo privileges are required for installation."),
         [.curlProbe,
          .download
            ("https://packages.wazuh.com/4.x/" ++ d ++ "/" ++ v ++ "/" ++ a
              ++ "/" ++ n)
            ("/tmp/wazuh-agent." ++ get_package_extension d),
          .sudoCheck]) := by
      rcases hs2 : e.sudoStatus with _ | b
      · simp [install_wazuh_agent, hd, ha, hn, hc, hdl, hs2]
      · cases b
        · simp [install_wazuh_agent, hd, ha, hn, hc, hdl, hs2]
        · exact absurd hs2 hs
    refine ⟨by rw [hrun], ?_⟩
    intro c p hp
    rw [hrun] at hp
    simp at hp

/-- C6 witness: on a fedora host with no curl, the run ends with the curl
DownloadError after the probe alone; on one whose sudo check fails, it ends
with the SudoError. -/
theorem claim_C6_witness :
    install_wazuh_agent envNoCurl =
      (.err (.DownloadError "Curl is not installed."), [.curlProbe]) ∧
    (install_wazuh_agent envNoSudo).1 =
      .err (.SudoError "Sudo privileges are required for installation.") :=
  ⟨((claim_C6 envNoCurl "fedora" "40" "aarch64" "wazuh-agent-4.7.3-1.x86_64.rpm"
      (by decide) (by decide) (by decide)).1 rfl).1,
   ((claim_C6 envNoSudo "fedora" "40" "aarch64" "wazuh-agent-4.7.3-1.x86_64.rpm"
      (by decide) (by decide) (by decide)).2.2 rfl rfl (by decide)).1⟩

/-- C7: if the path-lookup tool cannot be invoked, `check_wazuh_installed`
returns "not installed" (false); and on every possible lookup outcome it
returns an Ok value, never an error. -/
theorem claim_C7 :
    check_wazuh_installed none = .ok false ∧
    ∀ r : Option Bool, ∃ b : Bool, check_wazuh_installed r = .ok b := by
  refine ⟨rfl, fun r => ?_⟩
  cases r with
  | none => exact ⟨false, rfl⟩
  | some s => exact ⟨s, rfl⟩

/-- C8: the package extension depends only on the distribution: it is "apk"
exactly for alpine and "rpm" for every other distribution string. -/
theorem claim_C8 (distribution : String) :
    (get_package_extension distribution = "apk" ↔ distribution = "alpine") ∧
    (distribution ≠ "alpine" → get_package_extension distribution = "rpm") := by
  by_cases h : distribution = "alpine" <;> simp [get_package_extension, h]

/-- C8 witness: ubuntu, whose package filename ends in ".deb", still gets
extension "rpm". -/
theorem claim_C8_witness : get_package_extension "ubuntu" = "rpm" :=
  (claim_C8 "ubuntu").2 (by decide)

/-- C9: on each of the five supported build targets `get_architecture` returns
one of the five recognized tags; on every other target it fails with an
ArchitectureDetectionError; and every successful return value is one of the
five tags. -/
theorem claim_C9 (target_arch : String) :
    (target_arch ∈ (["x86", "x86_64", "aarch64", "arm", "powerpc64"] : List String) →
      ∃ a, a ∈ supportedArchitectures ∧ get_architecture target_arch = .ok a) ∧
    (target_arch ∉ (["x86", "x86_64", "aarch64", "arm", "powerpc64"] : List String) →
      get_architecture target_arch =
        .error (.ArchitectureDetectionError "Unsupported architecture")) ∧
    (∀ a, get_architecture target_arch = .ok a → a ∈ supportedArchitectures) := by
  refine ⟨?_, ?_, fun a h => arch_mem_supported _ a h⟩
  · intro h
    simp only [List.mem_cons, List.not_mem_nil, or_false] at h
    rcases h with rfl | rfl | rfl | rfl | rfl
    · exact ⟨"i386", by decide, by decide⟩
    · exact ⟨"x86_64", by decide, by decide⟩
    · exact ⟨"aarch64", by decide, by decide⟩
    · exact ⟨"armhf", by decide, by decide⟩
    · exact ⟨"powerpc", by decide, by decide⟩
  · intro h
    simp only [List.mem_cons, List.not_mem_nil, or_false, not_or] at h
    obtain ⟨n1, n2, n3, n4, n5⟩ := h
    simp [get_architecture, n1, n2, n3, n4, n5]

/-- C9 witness: x86_64 maps to a recognized tag and an unsupported target
(mips) is rejected. -/
theorem claim_C9_witness :
    (∃ a, a ∈ supportedArchitectures ∧ get_architecture "x86_64" = .ok a) ∧
    get_architecture "mips" =
      .error (.ArchitectureDetectionError "Unsupported architecture") :=
  ⟨(claim_C9 "x86_64").1 (by decide), (claim_C9 "mips").2.1 (by decide)⟩

/-- C10: for every distribution tag `get_distribution_and_version` can return
and every architecture tag `get_architecture` can return, `get_package_name`
reaches an explicit table arm and yields a filename; the unreachable arm
(modelled as `none`) is never taken on such inputs. -/
theorem claim_C10 (o : Option String) (t d v a : String)
    (hd : get_distribution_and_version o = .ok (d, v))
    (ha : get_architecture t = .ok a) :
    ∃ n, get_package_name d a = some n := by
  have hdm := gdv_mem_supported o d v hd
  have ham := arch_mem_supported t a ha
  have hs := package_name_isSome d hdm a ham
  exact Option.isSome_iff_exists.mp hs

/-- C10 witness: a debian 12 x86_64 host resolves to a filename. -/
theorem claim_C10_witness : ∃ n, get_package_name "debian" "x86_64" = some n :=
  claim_C10 (some "ID=debian\nVERSION_ID=\"12\"\n") "x86_64" "debian" "12" "x86_64"
    (by decide) (by decide)
